import Mathlib

/-!
# Verification of the crypto trade journal backend (src/backend/server.py)

Shallow embedding of the derivation engine (`calculate_quantity`,
`calculate_pnl`), the partial-update derivation logic of `update_trade`,
the pagination arithmetic of `get_trades`, and the statistics aggregator
of `get_trade_stats`.  Python floats are modelled as rationals (ℚ); the
claims under study are about the exact arithmetic formulas the code
computes, not about floating-point rounding.  Optional (nullable) values
are modelled with `Option`.
-/

namespace CryptoJournal

/-- `TradeType(str, Enum)` with members `LONG = "Long"`, `SHORT = "Short"`. -/
inductive TradeType where
  | long
  | short
deriving DecidableEq, Repr

/-- `calculate_quantity(usd_amount, entry_price)`:
`return usd_amount / entry_price if entry_price > 0 else 0`. -/
def calculate_quantity (usd_amount entry_price : ℚ) : ℚ :=
  if entry_price > 0 then usd_amount / entry_price else 0

/-- `calculate_pnl(trade_type, entry_price, exit_price, quantity)`.
The guard `if not all([trade_type, entry_price, exit_price, quantity]): return None`
uses Python truthiness: a `None` argument is falsy, a float argument is falsy
exactly when it is `0.0`, and a `TradeType` value (a nonempty-string enum) is
always truthy when present.  Then `Long` yields `(exit - entry) * quantity`
and the `else` branch (`Short`) yields `(entry - exit) * quantity`. -/
def calculate_pnl (trade_type : Option TradeType)
    (entry_price exit_price quantity : Option ℚ) : Option ℚ :=
  match trade_type, entry_price, exit_price, quantity with
  | some t, some e, some x, some q =>
      if e = 0 ∨ x = 0 ∨ q = 0 then none
      else if t = TradeType.long then some ((x - e) * q) else some ((e - x) * q)
  | _, _, _, _ => none

/-- The stored `CryptoTrade` record, restricted to the fields the update path
reads or writes.  `trade_date` and timestamps are kept as opaque strings. -/
structure CryptoTrade where
  id : String
  pair : String
  entry_price : ℚ
  exit_price : Option ℚ
  usd_amount : ℚ
  quantity : ℚ
  trade_date : String
  pnl : Option ℚ
  strategy : String
  trade_type : TradeType
  stop_loss : Option ℚ
  take_profit : Option ℚ
  notes : Option String
deriving DecidableEq, Repr

/-- `CryptoTradeUpdate`: the sparse PUT payload; every field optional,
defaulting to `None`. -/
structure CryptoTradeUpdate where
  pair : Option String := none
  entry_price : Option ℚ := none
  exit_price : Option ℚ := none
  usd_amount : Option ℚ := none
  trade_date : Option String := none
  pnl : Option ℚ := none
  strategy : Option String := none
  trade_type : Option TradeType := none
  stop_loss : Option ℚ := none
  take_profit : Option ℚ := none
  notes : Option String := none
deriving DecidableEq, Repr

/-- The `update_data` dict built by `update_trade`, restricted to the trade
fields (the always-inserted `updated_at` timestamp is tracked separately by
`update_data_keys`).  A field is `none` when its key is absent from the dict.
The `pnl` entry is `Option (Option ℚ)`: the key may be present with value
`null`, because `calculate_pnl` can return `None`. -/
structure UpdateData where
  pair : Option String
  entry_price : Option ℚ
  exit_price : Option ℚ
  usd_amount : Option ℚ
  trade_date : Option String
  pnl : Option (Option ℚ)
  strategy : Option String
  trade_type : Option TradeType
  stop_loss : Option ℚ
  take_profit : Option ℚ
  notes : Option String
  quantity : Option ℚ
deriving DecidableEq, Repr

/-- `any(f in update_data for f in ["usd_amount", "entry_price", "exit_price",
"trade_type"])`: a key is in `update_data` iff the payload field is non-null. -/
def recompute_triggered (u : CryptoTradeUpdate) : Bool :=
  u.usd_amount.isSome || u.entry_price.isSome || u.exit_price.isSome ||
    u.trade_type.isSome

/-- The body of `update_trade` up to the storage write: build
`update_data = {k: v for k, v in trade_update.dict().items() if v is not None}`,
and when any of the four critical keys is present, merge the payload over the
existing trade, recompute `quantity` with `calculate_quantity` and overwrite
the `quantity` and `pnl` entries (`pnl` via `calculate_pnl`). -/
def build_update_data (u : CryptoTradeUpdate) (existing : CryptoTrade) :
    UpdateData :=
  let base : UpdateData :=
    { pair := u.pair
      entry_price := u.entry_price
      exit_price := u.exit_price
      usd_amount := u.usd_amount
      trade_date := u.trade_date
      pnl := u.pnl.map some
      strategy := u.strategy
      trade_type := u.trade_type
      stop_loss := u.stop_loss
      take_profit := u.take_profit
      notes := u.notes
      quantity := none }
  if recompute_triggered u then
    let new_usd := u.usd_amount.getD existing.usd_amount
    let new_entry := u.entry_price.getD existing.entry_price
    let new_exit : Option ℚ :=
      match u.exit_price with
      | some x => some x
      | none => existing.exit_price
    let new_type := u.trade_type.getD existing.trade_type
    let new_quantity := calculate_quantity new_usd new_entry
    { base with
        quantity := some new_quantity
        pnl := some (calculate_pnl (some new_type) (some new_entry) new_exit
          (some new_quantity)) }
  else base

/-- The effect of `supabase.table(...).update(update_data)` on the stored row:
every key present in the dict overwrites the corresponding column; absent keys
leave the column unchanged. -/
def apply_update (d : UpdateData) (t : CryptoTrade) : CryptoTrade :=
  { t with
      pair := d.pair.getD t.pair
      entry_price := d.entry_price.getD t.entry_price
      exit_price := match d.exit_price with
        | some x => some x
        | none => t.exit_price
      usd_amount := d.usd_amount.getD t.usd_amount
      trade_date := d.trade_date.getD t.trade_date
      pnl := d.pnl.getD t.pnl
      strategy := d.strategy.getD t.strategy
      trade_type := d.trade_type.getD t.trade_type
      stop_loss := match d.stop_loss with
        | some x => some x
        | none => t.stop_loss
      take_profit := match d.take_profit with
        | some x => some x
        | none => t.take_profit
      notes := match d.notes with
        | some s => some s
        | none => t.notes
      quantity := d.quantity.getD t.quantity }

/-- The keys of `update_data` coming from the payload (non-null fields only),
before `updated_at` is inserted. -/
def payload_keys (u : CryptoTradeUpdate) : List String :=
  (if u.pair.isSome then ["pair"] else []) ++
  (if u.entry_price.isSome then ["entry_price"] else []) ++
  (if u.exit_price.isSome then ["exit_price"] else []) ++
  (if u.usd_amount.isSome then ["usd_amount"] else []) ++
  (if u.trade_date.isSome then ["trade_date"] else []) ++
  (if u.pnl.isSome then ["pnl"] else []) ++
  (if u.strategy.isSome then ["strategy"] else []) ++
  (if u.trade_type.isSome then ["trade_type"] else []) ++
  (if u.stop_loss.isSome then ["stop_loss"] else []) ++
  (if u.take_profit.isSome then ["take_profit"] else []) ++
  (if u.notes.isSome then ["notes"] else [])

/-- The keys of `update_data` at the point of the emptiness check:
`update_data["updated_at"] = datetime.utcnow().isoformat()` runs first, so
`"updated_at"` is always a key. -/
def update_data_keys (u : CryptoTradeUpdate) : List String :=
  payload_keys u ++ ["updated_at"]

/-- `if not update_data: raise HTTPException(status_code=400, ...)`:
the guard fires exactly when the dict is empty at the check. -/
def raises_empty_update_400 (u : CryptoTradeUpdate) : Bool :=
  (update_data_keys u).isEmpty

/-- The all-null PUT payload (request body `{}`). -/
def emptyUpdate : CryptoTradeUpdate := {}

/-- Pagination in `get_trades`: `start_index = (page - 1) * limit`. -/
def start_index (page limit : ℕ) : ℕ := (page - 1) * limit

/-- Pagination in `get_trades`: `end_index = start_index + limit - 1`
(the `range` bound is inclusive). -/
def end_index (page limit : ℕ) : ℕ := start_index page limit + limit - 1

/-- `total_pages = (total_records + limit - 1) // limit`. -/
def total_pages (total_records limit : ℕ) : ℕ := (total_records + limit - 1) / limit

/-- Modelled from the spec: `total_pages = ceil(total / limit)` — the ceiling
of the exact rational quotient, for comparison with the code's integer
formula `total_pages`. -/
def spec_total_pages (total_records limit : ℕ) : ℕ :=
  ⌈(total_records : ℚ) / (limit : ℚ)⌉₊

/-- One row of the stats query: `select('pnl, usd_amount')` over trades with
non-null `pnl`. -/
structure StatsRow where
  pnl : ℚ
  usd_amount : ℚ
deriving DecidableEq, Repr

/-- The summary object returned by `get_trade_stats` (values before the
final `round(..., 2)` at the output boundary). -/
structure StatsSummary where
  total_trades : ℕ
  total_pnl : ℚ
  total_invested : ℚ
  winning_trades : ℕ
  losing_trades : ℕ
  win_rate : ℚ
  avg_pnl : ℚ
  roi : ℚ
deriving DecidableEq, Repr

/-- The body of `get_trade_stats` on the qualifying rows (trades with
non-null `pnl`).  `if not response.data:` returns the all-zero summary;
otherwise the pandas reductions: `len(df)`, `df['pnl'].sum()`,
`df['usd_amount'].sum()`, counts of rows with `pnl > 0` / `pnl < 0`,
`win_rate = winning / total * 100 if total > 0 else 0`,
`avg_pnl = df['pnl'].mean()`,
`roi = total_pnl / total_invested * 100 if total_invested > 0 else 0`. -/
def get_trade_stats (rows : List StatsRow) : StatsSummary :=
  if rows.isEmpty then
    { total_trades := 0, total_pnl := 0, total_invested := 0
      winning_trades := 0, losing_trades := 0, win_rate := 0
      avg_pnl := 0, roi := 0 }
  else
    let total_trades := rows.length
    let total_pnl := (rows.map StatsRow.pnl).sum
    let total_invested := (rows.map StatsRow.usd_amount).sum
    let winning_trades := (rows.filter (fun r => r.pnl > 0)).length
    let losing_trades := (rows.filter (fun r => r.pnl < 0)).length
    let win_rate : ℚ :=
      if total_trades > 0 then (winning_trades : ℚ) / (total_trades : ℚ) * 100
      else 0
    let avg_pnl : ℚ := total_pnl / (total_trades : ℚ)
    let roi : ℚ :=
      if total_invested > 0 then total_pnl / total_invested * 100 else 0
    { total_trades := total_trades, total_pnl := total_pnl
      total_invested := total_invested, winning_trades := winning_trades
      losing_trades := losing_trades, win_rate := win_rate
      avg_pnl := avg_pnl, roi := roi }

/-! ## Theorems -/

/-- C1 counterexample: with `trade_type = Long`, `entry_price = 1`,
`exit_price = 2`, `quantity = 0` all four arguments are present and both
price fields are nonzero, so the claim's "otherwise" branch demands
`(exit_price - entry_price) * quantity = 0`; the code returns `None`
because `quantity = 0` is falsy in the `all([...])` guard. -/
theorem C1_counterexample :
    calculate_pnl (some TradeType.long) (some 1) (some 2) (some 0) = none ∧
    calculate_pnl (some TradeType.long) (some 1) (some 2) (some 0) ≠
      some ((2 - 1) * 0 : ℚ) := by
  constructor
  · rfl
  · intro h
    exact Option.noConfusion h

/-- C1 (amended): if any of `trade_type`, `entry_price`, `exit_price`,
`quantity` is missing (null), or any of the numeric fields `entry_price`,
`exit_price`, `quantity` is zero, `calculate_pnl` returns null; otherwise for
`Long` it returns `(exit_price - entry_price) * quantity` and for `Short` it
returns `(entry_price - exit_price) * quantity`. -/
theorem C1_calculate_pnl_amended (t : Option TradeType) (e x q : Option ℚ) :
    ((t = none ∨ e = none ∨ x = none ∨ q = none ∨
        e = some 0 ∨ x = some 0 ∨ q = some 0) →
      calculate_pnl t e x q = none) ∧
    (∀ tt ev xv qv, t = some tt → e = some ev → x = some xv → q = some qv →
      ev ≠ 0 → xv ≠ 0 → qv ≠ 0 →
      calculate_pnl t e x q = some
        (if tt = TradeType.long then (xv - ev) * qv else (ev - xv) * qv)) := by
  constructor
  · intro h
    rcases t with _ | t <;> rcases e with _ | e <;> rcases x with _ | x <;>
      rcases q with _ | q <;> simp_all [calculate_pnl]
  · intro tt ev xv qv ht he hx hq hev hxv hqv
    subst ht he hx hq
    simp only [calculate_pnl, hev, hxv, hqv, or_self, if_false, false_or]
    split <;> rfl

/-- C1 witness: the amended theorem evaluated at a concrete closed Long
trade: entry 45000, exit 47000, quantity 1/45. -/
theorem C1_calculate_pnl_amended_witness :
    calculate_pnl (some TradeType.long) (some 45000) (some 47000)
        (some (1/45)) = some
      (if TradeType.long = TradeType.long then (47000 - 45000) * (1/45 : ℚ)
       else (45000 - 47000) * (1/45 : ℚ)) :=
  (C1_calculate_pnl_amended (some TradeType.long) (some 45000) (some 47000)
    (some (1/45))).2 TradeType.long 45000 47000 (1/45) rfl rfl rfl rfl
    (by norm_num) (by norm_num) (by norm_num)

/-- C2: `calculate_quantity` returns `usd_amount / entry_price` when
`entry_price > 0` and `0` when `entry_price ≤ 0`; it is a total function
(no division by zero is ever evaluated, no exception). -/
theorem C2_calculate_quantity (usd_amount entry_price : ℚ) :
    (entry_price > 0 →
      calculate_quantity usd_amount entry_price = usd_amount / entry_price) ∧
    (entry_price ≤ 0 → calculate_quantity usd_amount entry_price = 0) := by
  constructor
  · intro h
    simp [calculate_quantity, h]
  · intro h
    simp [calculate_quantity, not_lt.mpr h]

/-- C2 witness: `calculate_quantity 1000 45000 = 1000 / 45000`. -/
theorem C2_calculate_quantity_witness :
    calculate_quantity 1000 45000 = (1000 : ℚ) / 45000 :=
  (C2_calculate_quantity 1000 45000).1 (by norm_num)

/-- C8: on an empty qualifying set `get_trade_stats` returns the all-zero
summary object (and, being a total function of the row list, raises no
error). -/
theorem C8_empty_stats_all_zero :
    get_trade_stats [] =
      { total_trades := 0, total_pnl := 0, total_invested := 0
        winning_trades := 0, losing_trades := 0, win_rate := 0
        avg_pnl := 0, roi := 0 } := rfl

/-- C9: `calculate_pnl` returns null whenever any argument is missing or any
numeric argument is zero — in particular whenever `quantity = 0`, even with
both prices present and nonzero. -/
theorem C9_calculate_pnl_null_on_zero (t : Option TradeType)
    (e x q : Option ℚ) :
    (t = none ∨ e = none ∨ x = none ∨ q = none ∨
      e = some 0 ∨ x = some 0 ∨ q = some 0) →
    calculate_pnl t e x q = none := by
  intro h
  rcases t with _ | t <;> rcases e with _ | e <;> rcases x with _ | x <;>
    rcases q with _ | q <;> simp_all [calculate_pnl]

/-- C9 witness: quantity `0` with both prices present and nonzero
(a trade created with `usd_amount = 0`) yields null pnl. -/
theorem C9_calculate_pnl_null_on_zero_witness :
    calculate_pnl (some TradeType.long) (some 100) (some 120) (some 0) =
      none :=
  C9_calculate_pnl_null_on_zero (some TradeType.long) (some 100) (some 120)
    (some 0) (by simp)

/-- A concrete stored trade used to instantiate the update-path theorems. -/
def sampleTrade : CryptoTrade :=
  { id := "t-1", pair := "BTC/USDT", entry_price := 45000
    exit_price := some 47000, usd_amount := 1000, quantity := 1/45
    trade_date := "2024-01-15", pnl := some (2000 * (1/45))
    strategy := "DCA", trade_type := TradeType.long
    stop_loss := none, take_profit := none, notes := none }

/-- C3: partial-update derivation.  If the payload carries `usd_amount` or
`entry_price`, the `quantity` entry of `update_data` is `calculate_quantity`
of the merged values; if it carries any of the four critical fields, the
`pnl` entry is `calculate_pnl` of the merged values (with the recomputed
quantity); if it carries none of them, no `quantity` entry is added and the
`pnl` entry is the payload's own `pnl` passed through unrecomputed. -/
theorem C3_update_derivation (u : CryptoTradeUpdate) (t : CryptoTrade) :
    ((u.usd_amount.isSome ∨ u.entry_price.isSome) →
      (build_update_data u t).quantity = some
        (calculate_quantity (u.usd_amount.getD t.usd_amount)
          (u.entry_price.getD t.entry_price))) ∧
    ((u.usd_amount.isSome ∨ u.entry_price.isSome ∨ u.exit_price.isSome ∨
        u.trade_type.isSome) →
      (build_update_data u t).pnl = some
        (calculate_pnl (some (u.trade_type.getD t.trade_type))
          (some (u.entry_price.getD t.entry_price))
          (match u.exit_price with
            | some x => some x
            | none => t.exit_price)
          (some (calculate_quantity (u.usd_amount.getD t.usd_amount)
            (u.entry_price.getD t.entry_price))))) ∧
    ((u.usd_amount = none ∧ u.entry_price = none ∧ u.exit_price = none ∧
        u.trade_type = none) →
      (build_update_data u t).quantity = none ∧
      (build_update_data u t).pnl = u.pnl.map some) := by
  refine ⟨?_, ?_, ?_⟩
  · intro h
    have htrig : recompute_triggered u = true := by
      rcases h with h | h <;> simp [recompute_triggered, h]
    simp [build_update_data, htrig]
  · intro h
    have htrig : recompute_triggered u = true := by
      rcases h with h | h | h | h <;> simp [recompute_triggered, h]
    simp [build_update_data, htrig]
  · rintro ⟨h1, h2, h3, h4⟩
    have htrig : recompute_triggered u = false := by
      simp [recompute_triggered, h1, h2, h3, h4]
    simp [build_update_data, htrig]

/-- C3 witness: updating `usd_amount` to 1200 and `exit_price` to 48000 on
`sampleTrade` recomputes quantity from the merged `(1200, 45000)` and pnl
from the merged values. -/
theorem C3_update_derivation_witness :
    (build_update_data
        { usd_amount := some 1200, exit_price := some 48000 }
        sampleTrade).quantity =
      some (calculate_quantity 1200 45000) :=
  (C3_update_derivation
      { usd_amount := some 1200, exit_price := some 48000 }
      sampleTrade).1 (Or.inl (by decide))

/-- C4: the dead empty-payload guard.  `update_data["updated_at"] = ...` is
executed before `if not update_data:`, so the dict is never empty at the
check and the 400 response is unreachable — in particular for the all-null
payload (request body `{}`), where the claim requires a 400. -/
theorem C4_empty_update_never_400 :
    raises_empty_update_400 emptyUpdate = false ∧
    ∀ u : CryptoTradeUpdate, raises_empty_update_400 u = false := by
  refine ⟨rfl, fun u => ?_⟩
  simp [raises_empty_update_400, update_data_keys]

/-- C10: an update whose only non-null derivation-relevant field is `pnl`
(none of `usd_amount`, `entry_price`, `exit_price`, `trade_type`) stores the
client-supplied `pnl` verbatim, with no recomputation, and leaves the stored
`quantity` unchanged. -/
theorem C10_pnl_passthrough (u : CryptoTradeUpdate) (t : CryptoTrade)
    (v : ℚ) :
    u.pnl = some v → u.usd_amount = none → u.entry_price = none →
    u.exit_price = none → u.trade_type = none →
    (apply_update (build_update_data u t) t).pnl = some v ∧
    (apply_update (build_update_data u t) t).quantity = t.quantity := by
  intro hp h1 h2 h3 h4
  have htrig : recompute_triggered u = false := by
    simp [recompute_triggered, h1, h2, h3, h4]
  simp [build_update_data, htrig, apply_update, hp]

/-- C10 witness: setting only `pnl := 123` on `sampleTrade` stores `123`
and keeps the stored quantity `1/45`. -/
theorem C10_pnl_passthrough_witness :
    (apply_update (build_update_data { pnl := some 123 } sampleTrade)
        sampleTrade).pnl = some 123 ∧
    (apply_update (build_update_data { pnl := some 123 } sampleTrade)
        sampleTrade).quantity = sampleTrade.quantity :=
  C10_pnl_passthrough { pnl := some 123 } sampleTrade 123 rfl rfl rfl rfl rfl

/-- C5 counterexample: a single qualifying trade with `pnl = 10` and
`usd_amount = -100` has `total_invested = -100 ≠ 0`, so the claim demands
`roi = 10 / (-100) * 100 = -10 ≠ 0`; the code's `total_invested > 0` guard
yields `roi = 0`. -/
theorem C5_counterexample :
    (get_trade_stats [{ pnl := 10, usd_amount := -100 }]).roi = 0 ∧
    (get_trade_stats [{ pnl := 10, usd_amount := -100 }]).total_invested =
      -100 ∧
    (get_trade_stats [{ pnl := 10, usd_amount := -100 }]).total_pnl /
        (get_trade_stats
          [{ pnl := 10, usd_amount := -100 }]).total_invested * 100 =
      -10 := by
  refine ⟨?_, ?_, ?_⟩ <;> norm_num [get_trade_stats]

/-- C5 (amended): `roi = total_pnl / total_invested * 100` when
`total_invested > 0`, and `roi = 0` when `total_invested ≤ 0` (the guard is
strict positivity, not non-zeroness: a negative invested total also yields
`0`). -/
theorem C5_roi_amended (rows : List StatsRow) :
    ((get_trade_stats rows).total_invested > 0 →
      (get_trade_stats rows).roi =
        (get_trade_stats rows).total_pnl /
          (get_trade_stats rows).total_invested * 100) ∧
    ((get_trade_stats rows).total_invested ≤ 0 →
      (get_trade_stats rows).roi = 0) := by
  cases rows with
  | nil => simp [get_trade_stats]
  | cons a l =>
      have hroi : (get_trade_stats (a :: l)).roi =
          if ((a :: l).map StatsRow.usd_amount).sum > 0 then
            ((a :: l).map StatsRow.pnl).sum /
              ((a :: l).map StatsRow.usd_amount).sum * 100
          else 0 := rfl
      have hinv : (get_trade_stats (a :: l)).total_invested =
          ((a :: l).map StatsRow.usd_amount).sum := rfl
      have hpnl : (get_trade_stats (a :: l)).total_pnl =
          ((a :: l).map StatsRow.pnl).sum := rfl
      constructor
      · intro h
        rw [hinv] at h
        rw [hroi, if_pos h, hpnl, hinv]
      · intro h
        rw [hinv] at h
        rw [hroi, if_neg (not_lt.mpr h)]

/-- C5 witness: one trade with `pnl = 10`, `usd_amount = 100` has positive
invested capital, and the amended theorem gives the roi formula there. -/
theorem C5_roi_amended_witness :
    (get_trade_stats [{ pnl := 10, usd_amount := 100 }]).roi =
      (get_trade_stats [{ pnl := 10, usd_amount := 100 }]).total_pnl /
        (get_trade_stats [{ pnl := 10, usd_amount := 100 }]).total_invested *
        100 :=
  (C5_roi_amended [{ pnl := 10, usd_amount := 100 }]).1 (by norm_num
    [get_trade_stats])

/-- C6: for `page ≥ 1` and `1 ≤ limit ≤ 100`, the query offset is
`(page - 1) * limit`, the inclusive range `[start_index, end_index]` spans
exactly `limit` records, the code's `(total + limit - 1) // limit` equals
the spec's `ceil(total / limit)`, and a zero total gives zero pages. -/
theorem C6_pagination (page limit total : ℕ) (hp : 1 ≤ page)
    (hl : 1 ≤ limit) (hl' : limit ≤ 100) :
    start_index page limit = (page - 1) * limit ∧
    end_index page limit + 1 - start_index page limit = limit ∧
    total_pages total limit = spec_total_pages total limit ∧
    (total = 0 → total_pages total limit = 0) := by
  have hpos : 0 < limit := hl
  have hq : (0 : ℚ) < (limit : ℚ) := by exact_mod_cast hpos
  refine ⟨rfl, ?_, ?_, ?_⟩
  · have he : end_index page limit = start_index page limit + limit - 1 :=
      rfl
    omega
  · -- the code's rounded-up division agrees with the rational ceiling
    unfold total_pages spec_total_pages
    have key : total ≤ ((total + limit - 1) / limit) * limit := by
      have h1 := Nat.div_add_mod (total + limit - 1) limit
      have h2 := Nat.mod_lt (total + limit - 1) hpos
      zify [show 1 ≤ total + limit from by omega] at h1 h2 ⊢
      nlinarith [h1, h2]
    have hcle : total ≤ ⌈(total : ℚ) / (limit : ℚ)⌉₊ * limit := by
      have hc := Nat.le_ceil ((total : ℚ) / (limit : ℚ))
      rw [div_le_iff₀ hq] at hc
      exact_mod_cast hc
    apply le_antisymm
    · have h1 : total + limit - 1 <
          (⌈(total : ℚ) / (limit : ℚ)⌉₊ + 1) * limit := by
        have hml : (⌈(total : ℚ) / (limit : ℚ)⌉₊ + 1) * limit =
            ⌈(total : ℚ) / (limit : ℚ)⌉₊ * limit + limit := by ring
        omega
      exact Nat.lt_succ_iff.mp ((Nat.div_lt_iff_lt_mul hpos).mpr h1)
    · apply Nat.ceil_le.mpr
      rw [div_le_iff₀ hq]
      exact_mod_cast key
  · intro h0
    subst h0
    simp only [total_pages, Nat.zero_add]
    exact Nat.div_eq_of_lt (by omega)

/-- C6 witness: `page = 3`, `limit = 10`, `total = 25` gives offset 20, a
10-record window, and `total_pages = 3 = ceil(25 / 10)`. -/
theorem C6_pagination_witness :
    start_index 3 10 = (3 - 1) * 10 ∧
    end_index 3 10 + 1 - start_index 3 10 = 10 ∧
    total_pages 25 10 = spec_total_pages 25 10 ∧
    (25 = 0 → total_pages 25 10 = 0) :=
  C6_pagination 3 10 25 (by norm_num) (by norm_num) (by norm_num)

/-- Each qualifying row is counted by exactly one of the three pnl signs, so
the win / loss / breakeven counts partition the qualifying set. -/
theorem count_pnl_trichotomy (l : List StatsRow) :
    (l.filter (fun r => r.pnl > 0)).length +
      (l.filter (fun r => r.pnl < 0)).length +
      l.countP (fun r => decide (r.pnl = 0)) = l.length := by
  induction l with
  | nil => simp
  | cons a t ih =>
      rcases lt_trichotomy a.pnl 0 with h | h | h
      · simp [List.filter_cons, List.countP_cons, h, h.ne, h.not_lt] at ih ⊢
        omega
      · simp [List.filter_cons, List.countP_cons, h] at ih ⊢
        omega
      · simp [List.filter_cons, List.countP_cons, h, h.ne.symm, h.not_lt]
          at ih ⊢
        omega

/-- C7: `winning_trades` counts exactly the qualifying rows with `pnl > 0`,
`losing_trades` exactly those with `pnl < 0`, breakeven rows (`pnl = 0`)
count toward neither (the three counts partition the set), and
`win_rate = winning / total * 100` when `total_trades > 0` and `0` when
`total_trades = 0`. -/
theorem C7_win_loss_counts (rows : List StatsRow) :
    (get_trade_stats rows).winning_trades =
      rows.countP (fun r => decide (r.pnl > 0)) ∧
    (get_trade_stats rows).losing_trades =
      rows.countP (fun r => decide (r.pnl < 0)) ∧
    (get_trade_stats rows).winning_trades +
        (get_trade_stats rows).losing_trades +
        rows.countP (fun r => decide (r.pnl = 0)) =
      (get_trade_stats rows).total_trades ∧
    ((get_trade_stats rows).total_trades > 0 →
      (get_trade_stats rows).win_rate =
        ((get_trade_stats rows).winning_trades : ℚ) /
          ((get_trade_stats rows).total_trades : ℚ) * 100) ∧
    ((get_trade_stats rows).total_trades = 0 →
      (get_trade_stats rows).win_rate = 0) := by
  cases rows with
  | nil => simp [get_trade_stats]
  | cons a l =>
      have hwin : (get_trade_stats (a :: l)).winning_trades =
          ((a :: l).filter (fun r => r.pnl > 0)).length := rfl
      have hlose : (get_trade_stats (a :: l)).losing_trades =
          ((a :: l).filter (fun r => r.pnl < 0)).length := rfl
      have htot : (get_trade_stats (a :: l)).total_trades =
          (a :: l).length := rfl
      have hrate : (get_trade_stats (a :: l)).win_rate =
          if (a :: l).length > 0 then
            (((a :: l).filter (fun r => r.pnl > 0)).length : ℚ) /
              ((a :: l).length : ℚ) * 100
          else 0 := rfl
      refine ⟨?_, ?_, ?_, ?_, ?_⟩
      · rw [hwin, List.countP_eq_length_filter]
      · rw [hlose, List.countP_eq_length_filter]
      · rw [hwin, hlose, htot]
        exact count_pnl_trichotomy (a :: l)
      · intro h
        rw [htot] at h
        rw [hrate, if_pos h, hwin, htot]
      · intro h
        rw [htot] at h
        simp at h

/-- C7 witness: two qualifying rows with pnls `5` and `-3` give one winner,
one loser, and the win-rate formula at a positive total. -/
theorem C7_win_loss_counts_witness :
    (get_trade_stats
        [{ pnl := 5, usd_amount := 100 }, { pnl := -3, usd_amount := 50 }]).win_rate =
      ((get_trade_stats
          [{ pnl := 5, usd_amount := 100 },
            { pnl := -3, usd_amount := 50 }]).winning_trades : ℚ) /
        ((get_trade_stats
          [{ pnl := 5, usd_amount := 100 },
            { pnl := -3, usd_amount := 50 }]).total_trades : ℚ) * 100 :=
  (C7_win_loss_counts
      [{ pnl := 5, usd_amount := 100 },
        { pnl := -3, usd_amount := 50 }]).2.2.2.1 (by decide)

end CryptoJournal
